import Mathlib

/-!
Verification of the CP-ABE + Proxy Re-Encryption engine of
cab-share/offchain-crypto.  The service (routes.py) instantiates the engine
from crypto_engine_windows.py, so that module is the authoritative code; the
fragments of crypto_engine.py and models.py that the claims touch are embedded
as well.

Modelling conventions (shallow embedding):
- The cryptographic primitives SHA-256, HMAC-SHA256 and AES-GCM are modelled
  symbolically as free constructors of an inductive term algebra `Data`
  (the standard collision-free / ideal-primitive abstraction): two hash or MAC
  terms are equal exactly when their inputs are, and AES-GCM decryption
  succeeds exactly on the matching key, nonce, body and tag.
- Hex encoding/decoding pairs (exact mutual inverses in the source, always
  applied in matched pairs) and JSON dumps/loads round-trips of a record are
  modelled as the identity: records stay structured.  Multi-part HMAC updates
  are modelled as right-nested `Data.pair` of the parts.
- Randomness (get_random_bytes, fresh nonces) is threaded as explicit `Data`
  arguments, mirroring how the interpreter draws fresh bytes per call.
- Python exceptions raised by the engine become `Except` errors with one
  error kind per distinct raise site.
-/

namespace CabShare

/-- Symbolic byte strings and values flowing through the engine.  `str` is a
literal string, `rnd i` an opaque fresh byte string (entropy draw number `i`),
and the remaining constructors are the ideal primitives: SHA-256, HMAC-SHA256
(key, message), AES-GCM encryption body and authentication tag
(key, nonce, plaintext), concatenation/pairing of message parts, and the
Python string rendering of a matrix row. -/
inductive Data where
  | str : String → Data
  | rnd : Nat → Data
  | sha256 : Data → Data
  | hmac : Data → Data → Data
  | aesEnc : Data → Data → Data → Data
  | aesTag : Data → Data → Data → Data
  | pair : Data → Data → Data
  | rowStr : List Int → Data
  deriving DecidableEq, Repr, Inhabited

/-- models.SystemParams: public parameters and master key.  Only `mk` is ever
read by another algorithm in the windows engine (keygen uses the DER export of
the master key as an HMAC key, modelled by `mk` itself). -/
structure SystemParams where
  make ::
  pk : Data
  mk : Data
  deriving DecidableEq, Repr, Inhabited

/-- models.UserKeys.  The source stores `sk` as a JSON string of a dict from
attribute to HMAC hex digest; the dumps/loads round-trip is modelled away, so
`sk` is the association list itself (Python dicts preserve insertion order). -/
structure UserKeys where
  sk : List (String × Data)
  attributes : List String
  ptid : String
  binding : Data
  deriving DecidableEq, Repr, Inhabited

/-- models.AccessPolicy: matrix M and the row-to-attribute map rho (a Python
dict keyed by row index, modelled as an association list). -/
structure AccessPolicy where
  matrix : List (List Int)
  rho : List (Nat × String)
  deriving DecidableEq, Repr, Inhabited

/-- One entry of the key_shares dict built by encrypt. -/
structure KeyShare where
  share : Data
  row : List Int
  deriving DecidableEq, Repr, Inhabited

/-- The ct_data record serialized into Ciphertext.ct by encrypt. -/
structure CtData where
  ciphertext : Data
  tag : Data
  nonce : Data
  key_shares : List (String × KeyShare)
  aes_key_encrypted : Data
  deriving DecidableEq, Repr, Inhabited

/-- models.Ciphertext. -/
structure Ciphertext where
  ct : CtData
  policy : AccessPolicy
  ct_hash : Data
  deriving DecidableEq, Repr, Inhabited

/-- The rk_data record serialized into ReencryptionKey.rk by generate_rekey. -/
structure RkData where
  reenc_key : Data
  ptid_driver : String
  random : Data
  deriving DecidableEq, Repr, Inhabited

/-- models.ReencryptionKey. -/
structure ReencryptionKey where
  rk : RkData
  ptid_from : String
  ptid_to : String
  deriving DecidableEq, Repr, Inhabited

/-- The ct_prime_data record serialized into ReencryptedCiphertext.ct_prime by
reencrypt. -/
structure CtPrimeData where
  ciphertext : Data
  tag : Data
  nonce : Data
  reenc_key : Data
  ptid_to : String
  deriving DecidableEq, Repr, Inhabited

/-- models.ReencryptedCiphertext. -/
structure ReencryptedCiphertext where
  ct_prime : CtPrimeData
  ct_prime_hash : Data
  r_double_prime : Data
  deriving DecidableEq, Repr, Inhabited

/-- Error kinds, one per distinct raise/failure site of the engine.
`noSetup` models the raise of ValueError with message
"System not initialized. Call setup() first." (the Uninitialized kind of the
specification); `verifyFailed` the raise of ValueError with message
"Verification failed! CT may be tampered." in decrypt (the VerificationFailed
kind); `authFailed` the MAC-mismatch ValueError raised inside AES-GCM
decrypt_and_verify (the AuthenticationFailed kind); `bindingMismatch` is the
IntegrityMismatch kind named by the specification, included so that its
absence from every code path can be stated; `keyLookupError` models a Python
KeyError/IndexError on a missing dict key or empty list. -/
inductive CryptoError where
  | noSetup
  | verifyFailed
  | authFailed
  | bindingMismatch
  | keyLookupError
  deriving DecidableEq, Repr, Inhabited

/-- models.compute_hash: SHA-256 of the canonical string form of the data. -/
def compute_hash (d : Data) : Data := Data.sha256 d

/-- models.compute_binding: B = H1(s), SHA-256 of the UTF-8 bytes of `s`. -/
def compute_binding (s : String) : Data := Data.sha256 (Data.str s)

/-- json.dumps of the sk components dict, as fed to HMAC in generate_rekey
(injective encoding of the association list into a term). -/
def encodeSk : List (String × Data) → Data
  | [] => Data.str ""
  | (a, d) :: rest => Data.pair (Data.pair (Data.str a) d) (encodeSk rest)

/-- json.dumps of the key_shares dict (injective term encoding). -/
def encodeShares : List (String × KeyShare) → Data
  | [] => Data.str ""
  | (a, ks) :: rest =>
      Data.pair (Data.pair (Data.str a) (Data.pair ks.share (Data.rowStr ks.row)))
        (encodeShares rest)

/-- json.dumps of the ct_data record (injective term encoding). -/
def encodeCt (c : CtData) : Data :=
  Data.pair c.ciphertext (Data.pair c.tag (Data.pair c.nonce
    (Data.pair (encodeShares c.key_shares) c.aes_key_encrypted)))

/-- json.dumps of the ct_prime_data record (injective term encoding). -/
def encodeCtPrime (c : CtPrimeData) : Data :=
  Data.pair c.ciphertext (Data.pair c.tag (Data.pair c.nonce
    (Data.pair c.reenc_key (Data.str c.ptid_to))))

/-- CPABEProxyReenc.setup (crypto_engine_windows.py:28-51): generate a master
ECC key pair and publish SystemParams.  Key generation is modelled by the
entropy argument; the public part is a value derived from the master secret. -/
def setup (entropy : Data) : SystemParams :=
  { pk := Data.pair (Data.str "public_key") entropy, mk := entropy }

/-- CPABEProxyReenc.keygen (crypto_engine_windows.py:53-92).  Fails when
`self.params` is unset; otherwise, for each attribute, computes
HMAC(master DER, attr then ptid then user_random), sets binding = H1(ptid),
and returns the keys.  The ptid argument is stored unchanged. -/
def keygen (params : Option SystemParams) (attributes : List String)
    (ptid : String) (user_random : Data) : Except CryptoError UserKeys :=
  match params with
  | none => Except.error CryptoError.noSetup
  | some p =>
      let sk_components := attributes.map fun attr =>
        (attr, Data.hmac p.mk
          (Data.pair (Data.str attr) (Data.pair (Data.str ptid) user_random)))
      Except.ok { sk := sk_components, attributes := attributes, ptid := ptid,
                  binding := compute_binding ptid }

/-- Python dict assignment key_shares[attr] = v: replaces in place when the key
exists (keeping its position), otherwise appends. -/
def dictInsert (k : String) (v : KeyShare) :
    List (String × KeyShare) → List (String × KeyShare)
  | [] => [(k, v)]
  | (k2, v2) :: rest =>
      if k = k2 then (k, v) :: rest else (k2, v2) :: dictInsert k v rest

/-- The key_shares loop of encrypt (crypto_engine_windows.py:117-129):
iterates the matrix rows with index `i`, looks up rho[i] (a missing key raises
KeyError), and stores share = HMAC(aes_key, attr then str(row)) under attr. -/
def buildKeyShares (aes_key : Data) (rho : List (Nat × String)) :
    List (List Int) → Nat → List (String × KeyShare) →
    Except CryptoError (List (String × KeyShare))
  | [], _, acc => Except.ok acc
  | row :: rest, i, acc =>
      match rho.lookup i with
      | none => Except.error CryptoError.keyLookupError
      | some attr =>
          buildKeyShares aes_key rho rest (i + 1)
            (dictInsert attr
              { share := Data.hmac aes_key (Data.pair (Data.str attr) (Data.rowStr row)),
                row := row } acc)

/-- CPABEProxyReenc.encrypt (crypto_engine_windows.py:94-146).  Fails when
`self.params` is unset; otherwise draws a fresh 32-byte AES key, encrypts the
plaintext with AES-GCM under a fresh nonce, builds the per-row key shares, and
stores the AES key itself in the clear as the aes_key_encrypted field
(source comment: for demo, in production use proper ABE).  `aes_key` and
`nonce` are the fresh random draws. -/
def encrypt (params : Option SystemParams) (plaintext : String)
    (policy : AccessPolicy) (aes_key nonce : Data) : Except CryptoError Ciphertext :=
  match params with
  | none => Except.error CryptoError.noSetup
  | some _ =>
      let body := Data.aesEnc aes_key nonce (Data.str plaintext)
      let tag := Data.aesTag aes_key nonce (Data.str plaintext)
      match buildKeyShares aes_key policy.rho policy.matrix 0 [] with
      | Except.error e => Except.error e
      | Except.ok shares =>
          let ct_data : CtData :=
            { ciphertext := body, tag := tag, nonce := nonce,
              key_shares := shares, aes_key_encrypted := aes_key }
          Except.ok { ct := ct_data, policy := policy,
                      ct_hash := compute_hash (encodeCt ct_data) }

/-- CPABEProxyReenc.match (crypto_engine_windows.py:148-164): returns whether
set(policy.rho.values()) is a subset of set(attributes).  Named matchPolicy
because `match` is a Lean keyword.  The engine state (`self.params`) is passed
for fidelity although the source method never reads it. -/
def matchPolicy (_params : Option SystemParams) (policy : AccessPolicy)
    (attributes : List String) : Bool :=
  policy.rho.all fun kv => attributes.contains kv.2

/-- CPABEProxyReenc.generate_rekey (crypto_engine_windows.py:166-200): draws
fresh re-encryption randomness and returns
HMAC(reenc_random, json.dumps(sk components) then pk_driver then ptid_driver)
together with the randomness itself in the clear (the `random` field).
No initialization check in the source. -/
def generate_rekey (_params : Option SystemParams) (sk_rider : UserKeys)
    (pk_driver : String) (ptid_driver : String) (reenc_random : Data) :
    ReencryptionKey :=
  let h := Data.hmac reenc_random
    (Data.pair (encodeSk sk_rider.sk)
      (Data.pair (Data.str pk_driver) (Data.str ptid_driver)))
  { rk := { reenc_key := h, ptid_driver := ptid_driver, random := reenc_random },
    ptid_from := sk_rider.ptid, ptid_to := ptid_driver }

/-- CPABEProxyReenc.reencrypt (crypto_engine_windows.py:202-244): keeps the
payload fields, sets reenc_key = HMAC(rk.random, aes_key_encrypted hex), and
sets the verification value r_double_prime = SHA-256(SHA-256(rk.reenc_key)) —
note the preimage is the re-encryption key field of `rk`, not the freshly
computed reenc_key of the transformed ciphertext.  No initialization check. -/
def reencrypt (_params : Option SystemParams) (ct : Ciphertext)
    (rk : ReencryptionKey) : ReencryptedCiphertext :=
  let reenc_key := Data.hmac rk.rk.random ct.ct.aes_key_encrypted
  let ct_prime : CtPrimeData :=
    { ciphertext := ct.ct.ciphertext, tag := ct.ct.tag, nonce := ct.ct.nonce,
      reenc_key := reenc_key, ptid_to := rk.rk.ptid_driver }
  { ct_prime := ct_prime,
    ct_prime_hash := compute_hash (encodeCtPrime ct_prime),
    r_double_prime := Data.sha256 (Data.sha256 rk.rk.reenc_key) }

/-- CPABEProxyReenc.verify (crypto_engine_windows.py:246-268): recomputes
SHA-256(SHA-256(ct_prime.reenc_key)) and compares it to r_double_prime.  The
guard on a missing reenc_key JSON field is vacuous in the structured model
(the field is always present).  Reads nothing else: the payload fields,
ptid_to and ct_prime_hash do not enter the check.  No initialization check. -/
def verify (_params : Option SystemParams) (cp : ReencryptedCiphertext) : Bool :=
  Data.sha256 (Data.sha256 cp.ct_prime.reenc_key) == cp.r_double_prime

/-- AES-GCM decrypt_and_verify under the ideal-cipher model: returns the
plaintext exactly when the key, nonce, body and authentication tag all match
a well-formed encryption; any mismatch raises the MAC-failure error. -/
def gcmDecrypt (key nonce body tag : Data) : Except CryptoError String :=
  match body with
  | Data.aesEnc k n (Data.str p) =>
      if k = key ∧ n = nonce ∧ tag = Data.aesTag key nonce (Data.str p) then
        Except.ok p
      else Except.error CryptoError.authFailed
  | _ => Except.error CryptoError.authFailed

/-- The two shapes accepted by decrypt (isinstance dispatch). -/
inductive CtOrReenc where
  | orig : Ciphertext → CtOrReenc
  | reenc : ReencryptedCiphertext → CtOrReenc
  deriving DecidableEq, Repr, Inhabited

/-- CPABEProxyReenc.decrypt (crypto_engine_windows.py:270-306).
Re-encrypted path: runs verify first and raises the verification error on
failure, before any key derivation or symmetric step; otherwise derives the
AES key as HMAC(first sk component, reenc_key) (an empty sk dict would raise
an index error) and AES-GCM-decrypts.  Direct path: reads the AES key straight
from the aes_key_encrypted field of the ciphertext — the caller key material
`sk` is never consulted — and AES-GCM-decrypts.  No initialization check, and
no step ever recomputes a plaintext hash or compares a binding. -/
def decrypt (params : Option SystemParams) (c : CtOrReenc) (sk : UserKeys) :
    Except CryptoError String :=
  match c with
  | CtOrReenc.reenc cp =>
      if verify params cp then
        match sk.sk with
        | [] => Except.error CryptoError.keyLookupError
        | (_, comp) :: _ =>
            gcmDecrypt (Data.hmac comp cp.ct_prime.reenc_key)
              cp.ct_prime.nonce cp.ct_prime.ciphertext cp.ct_prime.tag
      else Except.error CryptoError.verifyFailed
  | CtOrReenc.orig ct =>
      gcmDecrypt ct.ct.aes_key_encrypted ct.ct.nonce ct.ct.ciphertext ct.ct.tag

/-- CPABEProxyReenc.check_match in the pairing-based module
(crypto_engine.py:177-200): collects the row indices whose mapped attribute
the user holds and returns whether at least one row is satisfied (the source
comment says a full implementation would solve the linear system instead).
A rho entry missing for a row index would raise KeyError in Python; the model
treats such a row as unsatisfied, which agrees on every total rho. -/
def check_match (user_attrs : List String) (policy : AccessPolicy) : Bool :=
  let satisfied_rows := (List.range policy.matrix.length).filter fun i =>
    match policy.rho.lookup i with
    | some a => user_attrs.contains a
    | none => false
  !satisfied_rows.isEmpty

/-- The PTID derivation of keygen in the pairing-based module
(crypto_engine.py:96-97): ptid = SHA-256 of the f-string "user_id:r" where r
is a fresh random scalar drawn at line 71.  The f-string is modelled as the
pairing of the literal prefix with the rendered scalar. -/
def keygen_ptid (user_id : String) (r : Data) : Data :=
  Data.sha256 (Data.pair (Data.str (user_id ++ ":")) r)

/-! Concrete fixtures used by witnesses and counterexamples. -/

/-- A 2-row AND policy over attributes A and B with reconstruction target
(1,0): row0 + row1 fails, row0 = (1,1), row1 = (0,1), target = row0 - row1. -/
def andPolicy : AccessPolicy :=
  { matrix := [[1, 1], [0, 1]], rho := [(0, "A"), (1, "B")] }

/-- A 2-row OR policy: each row alone equals the target (1,0). -/
def orPolicy : AccessPolicy :=
  { matrix := [[1, 0], [1, 0]], rho := [(0, "A"), (1, "B")] }

/-- Concrete system parameters from setup. -/
def sysP : SystemParams := setup (Data.rnd 0)

/-- A concrete key holder with attributes A and B. -/
def skAB : UserKeys :=
  { sk := [("A", Data.rnd 9)], attributes := ["A", "B"], ptid := "drv",
    binding := compute_binding "drv" }

end CabShare
namespace CabShare

/-- A concrete key holder with no attributes and no key components. -/
def skEmpty : UserKeys :=
  { sk := [], attributes := [], ptid := "x", binding := compute_binding "x" }

/-- Rider keys issued by keygen over attributes A, B. -/
def riderKeys : UserKeys :=
  (keygen (some sysP) ["A", "B"] "rider" (Data.rnd 1)).toOption.getD default

/-- Driver keys issued by keygen over attributes A, B. -/
def driverKeys : UserKeys :=
  (keygen (some sysP) ["A", "B"] "driver" (Data.rnd 2)).toOption.getD default

/-- A ciphertext honestly produced by encrypt under the AND policy. -/
def ct3 : Ciphertext :=
  (encrypt (some sysP) "hello" andPolicy (Data.rnd 3) (Data.rnd 4)).toOption.getD default

/-- A re-encryption key honestly produced by generate_rekey toward the driver. -/
def rk3 : ReencryptionKey :=
  generate_rekey (some sysP) riderKeys "driverPK" "driver" (Data.rnd 5)

/-- The honest proxy transform of ct3 under rk3. -/
def rct3 : ReencryptedCiphertext := reencrypt (some sysP) ct3 rk3

/-- The AES key that decrypt derives on the re-encrypted path for a holder
whose first secret component is rnd 7 and a transformed ciphertext whose
reenc_key field is rnd 8. -/
def aesKeyD : Data := Data.hmac (Data.rnd 7) (Data.rnd 8)

/-- A transformed-ciphertext record whose payload decrypts under aesKeyD and
whose ptid_to is the one-byte string p. -/
def ctpC4 : CtPrimeData :=
  { ciphertext := Data.aesEnc aesKeyD (Data.rnd 9) (Data.str "m"),
    tag := Data.aesTag aesKeyD (Data.rnd 9) (Data.str "m"),
    nonce := Data.rnd 9, reenc_key := Data.rnd 8, ptid_to := "p" }

/-- A ReencryptedCiphertext whose verification value is consistent with its
reenc_key field, so that verify accepts it. -/
def rctC4 : ReencryptedCiphertext :=
  { ct_prime := ctpC4, ct_prime_hash := compute_hash (encodeCtPrime ctpC4),
    r_double_prime := Data.sha256 (Data.sha256 (Data.rnd 8)) }

/-- rctC4 with a single-bit modification of the transformed component ptid_to:
the byte p (0x70) becomes q (0x71), which differ in exactly the lowest bit.
Every other field, including ct_prime_hash, is left as in rctC4. -/
def rctC4flipped : ReencryptedCiphertext :=
  { rctC4 with ct_prime := { ctpC4 with ptid_to := "q" } }

/-- The key holder whose first secret component is rnd 7, matching aesKeyD. -/
def skD : UserKeys :=
  { sk := [("A", Data.rnd 7)], attributes := ["A"], ptid := "drv2",
    binding := compute_binding "drv2" }

/-- Decrypting a ciphertext that encrypt produced recovers the plaintext on
the direct path, for any caller key material: the AES key is read from the
aes_key_encrypted field of the ciphertext itself. -/
theorem decrypt_encrypt_ok (params : SystemParams) (pt : String)
    (pol : AccessPolicy) (k n : Data) (sk : UserKeys) (ct : Ciphertext)
    (henc : encrypt (some params) pt pol k n = Except.ok ct) :
    decrypt (some params) (CtOrReenc.orig ct) sk = Except.ok pt := by
  unfold encrypt at henc
  cases hks : buildKeyShares k pol.rho pol.matrix 0 [] with
  | error e =>
      rw [hks] at henc
      exact absurd henc (by simp)
  | ok shares =>
      rw [hks] at henc
      have hct := Except.ok.inj henc
      subst hct
      simp [decrypt, gcmDecrypt]

/-- gcmDecrypt never produces the binding-mismatch error kind. -/
theorem gcmDecrypt_ne_bindingMismatch (key nonce body tag : Data) :
    gcmDecrypt key nonce body tag ≠ Except.error CryptoError.bindingMismatch := by
  unfold gcmDecrypt
  split
  · split <;> simp
  · simp

/-- C1: the symmetric payload key is directly computable from the ciphertext
alone — encrypt stores the fresh AES key itself in the aes_key_encrypted
field, so the field projection is a function of the ciphertext (no private
key, no re-encryption key) that yields the AES payload key.  This refutes the
claim that no function of the ciphertext and re-encryption key yields the
key. -/
theorem c1_aes_key_exposed (params : SystemParams) (pt : String)
    (pol : AccessPolicy) (k n : Data) (ct : Ciphertext)
    (henc : encrypt (some params) pt pol k n = Except.ok ct) :
    ct.ct.aes_key_encrypted = k := by
  unfold encrypt at henc
  cases hks : buildKeyShares k pol.rho pol.matrix 0 [] with
  | error e =>
      rw [hks] at henc
      exact absurd henc (by simp)
  | ok shares =>
      rw [hks] at henc
      have hct := Except.ok.inj henc
      subst hct
      rfl

/-- Witness for c1_aes_key_exposed at a concrete encryption. -/
theorem c1_aes_key_exposed_witness :
    (encrypt (some sysP) "m" andPolicy (Data.rnd 1) (Data.rnd 2) =
      Except.ok ((encrypt (some sysP) "m" andPolicy (Data.rnd 1)
        (Data.rnd 2)).toOption.getD default)) ∧
    ((encrypt (some sysP) "m" andPolicy (Data.rnd 1)
        (Data.rnd 2)).toOption.getD default).ct.aes_key_encrypted = Data.rnd 1 :=
  ⟨rfl, c1_aes_key_exposed sysP "m" andPolicy (Data.rnd 1) (Data.rnd 2) _ rfl⟩

/-- C2: evaluation of the two match implementations on the concrete test
policies of the specification.  The windows engine match gets the AND policy
right but rejects the OR policy for A alone and for B alone (the claim
expects true), because it is a plain values-subset test; check_match in
crypto_engine.py accepts the AND policy for A alone (the claim expects
false), because it accepts any single satisfied row. -/
theorem c2_match_divergence :
    matchPolicy (some sysP) andPolicy ["A"] = false ∧
    matchPolicy (some sysP) andPolicy ["B"] = false ∧
    matchPolicy (some sysP) andPolicy ["A", "B"] = true ∧
    matchPolicy (some sysP) orPolicy ["A"] = false ∧
    matchPolicy (some sysP) orPolicy ["B"] = false ∧
    check_match ["A"] andPolicy = true :=
  ⟨rfl, rfl, rfl, rfl, rfl, rfl⟩

/-- C3: the honest proxy pipeline fails.  reencrypt computes the verification
value from the reenc_key field of the re-encryption key, while verify
recomputes it from the reenc_key field of the transformed ciphertext (an HMAC
of the payload key under the re-encryption randomness) — two different
values — so verify rejects the honestly re-encrypted ciphertext, and decrypt
on it raises the verification error instead of returning the plaintext. -/
theorem c3_proxy_pipeline_fails :
    verify (some sysP) rct3 = false ∧
    decrypt (some sysP) (CtOrReenc.reenc rct3) driverKeys =
      Except.error CryptoError.verifyFailed :=
  ⟨rfl, rfl⟩

/-- C4: a single-bit modification of a transformed policy component escapes
verification.  rctC4 verifies; rctC4flipped differs from it in exactly one
bit of the transformed component ptid_to (p versus q), yet verify still
accepts it — verify reads only the reenc_key field and the verification
value — and decrypt proceeds into the symmetric step and returns the payload
instead of failing with the verification error. -/
theorem c4_bitflip_not_detected :
    verify (some sysP) rctC4 = true ∧
    verify (some sysP) rctC4flipped = true ∧
    decrypt (some sysP) (CtOrReenc.reenc rctC4flipped) skD = Except.ok "m" :=
  ⟨rfl, rfl, rfl⟩

/-- C5: no decrypt path can fail with the binding-mismatch (IntegrityMismatch)
kind: the windows engine never computes a hash of the decrypted plaintext and
carries no plaintext binding in Ciphertext or ReencryptedCiphertext (its
compute_binding is applied only to the ptid inside keygen), so the only
failure kinds reachable from decrypt are verification failure, key lookup
failure and symmetric authentication failure. -/
theorem c5_no_binding_check (params : Option SystemParams) (c : CtOrReenc)
    (sk : UserKeys) :
    decrypt params c sk ≠ Except.error CryptoError.bindingMismatch := by
  cases c with
  | orig ct => exact gcmDecrypt_ne_bindingMismatch _ _ _ _
  | reenc cp =>
      simp only [decrypt]
      split
      · split
        · simp
        · exact gcmDecrypt_ne_bindingMismatch _ _ _ _
      · simp

/-- C6: direct round trip.  For every plaintext, policy and key holder whose
attributes satisfy the policy under the engine match, decrypting the direct
ciphertext returned by encrypt yields exactly the original plaintext. -/
theorem c6_direct_roundtrip (params : SystemParams) (pt : String)
    (pol : AccessPolicy) (k n : Data) (sk : UserKeys) (ct : Ciphertext)
    (henc : encrypt (some params) pt pol k n = Except.ok ct)
    (_hsat : matchPolicy (some params) pol sk.attributes = true) :
    decrypt (some params) (CtOrReenc.orig ct) sk = Except.ok pt :=
  decrypt_encrypt_ok params pt pol k n sk ct henc

/-- Witness for c6_direct_roundtrip at a concrete encryption with a holder
of both policy attributes. -/
theorem c6_direct_roundtrip_witness :
    decrypt (some sysP)
      (CtOrReenc.orig ((encrypt (some sysP) "m" andPolicy (Data.rnd 1)
        (Data.rnd 2)).toOption.getD default)) skAB = Except.ok "m" :=
  c6_direct_roundtrip sysP "m" andPolicy (Data.rnd 1) (Data.rnd 2) skAB _ rfl rfl

/-- C7 counterexample: algorithms other than setup run before any setup.
With the engine state unset, match computes and returns true on its inputs
and verify computes and returns true, instead of failing with the
uninitialized kind. -/
theorem c7_counterexample :
    matchPolicy none andPolicy ["A", "B"] = true ∧
    verify none rctC4 = true :=
  ⟨rfl, rfl⟩

/-- C7 amended: only keygen and encrypt guard initialization — invoked with
the parameters unset they fail with the uninitialized kind without touching
their inputs — while match, generate_rekey, reencrypt, verify and decrypt
never consult the parameters: their result with the parameters unset equals
their result with any parameters. -/
theorem c7_uninitialized_guard (attrs : List String) (ptid : String) (r : Data)
    (pt : String) (pol : AccessPolicy) (k n : Data) (skR sk : UserKeys)
    (pk_driver ptid_driver : String) (ct : Ciphertext) (rk : ReencryptionKey)
    (cp : ReencryptedCiphertext) :
    keygen none attrs ptid r = Except.error CryptoError.noSetup ∧
    encrypt none pt pol k n = Except.error CryptoError.noSetup ∧
    (∀ params, matchPolicy params pol attrs = matchPolicy none pol attrs) ∧
    (∀ params, generate_rekey params skR pk_driver ptid_driver r =
      generate_rekey none skR pk_driver ptid_driver r) ∧
    (∀ params, reencrypt params ct rk = reencrypt none ct rk) ∧
    (∀ params, verify params cp = verify none cp) ∧
    (∀ params c, decrypt params c sk = decrypt none c sk) :=
  ⟨rfl, rfl, fun _ => rfl, fun _ => rfl, fun _ => rfl, fun _ => rfl,
    fun _ c => by cases c <;> rfl⟩

/-- C8 counterexample: two independent keygen invocations with the same
identity input and different fresh randomness return the same
pseudo-identifier — the windows keygen stores the caller-supplied ptid
unchanged, so issuances are perfectly linkable. -/
theorem c8_counterexample :
    (keygen (some sysP) ["A"] "alice" (Data.rnd 1)).map UserKeys.ptid =
    (keygen (some sysP) ["A"] "alice" (Data.rnd 2)).map UserKeys.ptid :=
  rfl

/-- C8 amended: the windows keygen does not derive the pseudo-identifier — it
returns the caller-supplied ptid unchanged, independent of the per-issuance
randomness; the derivation matching the claim, SHA-256 over the identity seed
paired with fresh randomness, exists only in the inoperative pairing-based
module, where it does produce distinct ptids for distinct randomness. -/
theorem c8_ptid_behavior (params : SystemParams) (attrs : List String)
    (ptid : String) (r r1 r2 : Data) (ks : UserKeys) (uid : String)
    (h : keygen (some params) attrs ptid r = Except.ok ks) (hr : r1 ≠ r2) :
    ks.ptid = ptid ∧ keygen_ptid uid r1 ≠ keygen_ptid uid r2 := by
  constructor
  · unfold keygen at h
    cases h
    rfl
  · intro heq
    exact hr (by simpa [keygen_ptid] using heq)

/-- Witness for c8_ptid_behavior at a concrete issuance and concrete distinct
randomness. -/
theorem c8_ptid_behavior_witness :
    ((keygen (some sysP) ["A"] "alice" (Data.rnd 1)).toOption.getD default).ptid
      = "alice" ∧
    keygen_ptid "u" (Data.rnd 1) ≠ keygen_ptid "u" (Data.rnd 2) :=
  c8_ptid_behavior sysP ["A"] "alice" (Data.rnd 1) (Data.rnd 1) (Data.rnd 2) _
    "u" rfl (by decide)

/-- C9: on the direct path, decrypt ignores the caller key material: for any
ciphertext produced by encrypt and any two key-holder values whatsoever, the
results agree, and both equal the original plaintext, because the AES key is
read from the aes_key_encrypted field of the ciphertext itself. -/
theorem c9_key_independence (params : SystemParams) (pt : String)
    (pol : AccessPolicy) (k n : Data) (ct : Ciphertext) (sk1 sk2 : UserKeys)
    (henc : encrypt (some params) pt pol k n = Except.ok ct) :
    decrypt (some params) (CtOrReenc.orig ct) sk1 =
      decrypt (some params) (CtOrReenc.orig ct) sk2 ∧
    decrypt (some params) (CtOrReenc.orig ct) sk1 = Except.ok pt :=
  ⟨rfl, decrypt_encrypt_ok params pt pol k n sk1 ct henc⟩

/-- Witness for c9_key_independence: a holder of both attributes and a holder
of no attributes at all decrypt the same concrete ciphertext to the same
plaintext. -/
theorem c9_key_independence_witness :
    (decrypt (some sysP)
      (CtOrReenc.orig ((encrypt (some sysP) "m" andPolicy (Data.rnd 1)
        (Data.rnd 2)).toOption.getD default)) skAB =
     decrypt (some sysP)
      (CtOrReenc.orig ((encrypt (some sysP) "m" andPolicy (Data.rnd 1)
        (Data.rnd 2)).toOption.getD default)) skEmpty) ∧
    decrypt (some sysP)
      (CtOrReenc.orig ((encrypt (some sysP) "m" andPolicy (Data.rnd 1)
        (Data.rnd 2)).toOption.getD default)) skAB = Except.ok "m" :=
  c9_key_independence sysP "m" andPolicy (Data.rnd 1) (Data.rnd 2) _ skAB
    skEmpty rfl

/-- C10: the engine match is exactly the values-subset test: it returns true
iff every attribute label occurring as a value of the row-to-attribute map is
among the given attributes; consequently it is independent of the policy
matrix, and it returns true for every attribute list when the map is empty. -/
theorem c10_match_characterization (params : Option SystemParams)
    (pol : AccessPolicy) (attrs : List String) :
    (matchPolicy params pol attrs = true ↔ pol.rho.map Prod.snd ⊆ attrs) ∧
    (∀ m2, matchPolicy params { matrix := m2, rho := pol.rho } attrs =
      matchPolicy params pol attrs) ∧
    (pol.rho = [] → matchPolicy params pol attrs = true) := by
  refine ⟨?_, fun m2 => rfl, fun h => by simp [matchPolicy, h]⟩
  simp only [matchPolicy, List.all_eq_true, List.subset_def, List.mem_map]
  constructor
  · rintro h a ⟨kv, hkv, rfl⟩
    have h2 := h kv hkv
    simpa using h2
  · intro h kv hkv
    simpa using h ⟨kv, hkv, rfl⟩

/-- Witness for c10_match_characterization: the subset direction, the matrix
independence and the empty-map case at concrete inputs. -/
theorem c10_match_characterization_witness :
    matchPolicy (some sysP) andPolicy ["A", "B"] = true ∧
    matchPolicy (some sysP) { matrix := [[5, 7], [9, 11]], rho := andPolicy.rho }
      ["A", "B"] = matchPolicy (some sysP) andPolicy ["A", "B"] ∧
    matchPolicy (some sysP) { matrix := [[1]], rho := [] } ["Z"] = true :=
  ⟨(c10_match_characterization (some sysP) andPolicy ["A", "B"]).1.mpr
      (by decide),
   (c10_match_characterization (some sysP) andPolicy ["A", "B"]).2.1
      [[5, 7], [9, 11]],
   (c10_match_characterization (some sysP)
      { matrix := [[1]], rho := [] } ["Z"]).2.2 rfl⟩

end CabShare
